import Mathlib

/-!
Verification development for the byeolstar.com repository: a shallow
embedding of the server actions (store/comment CRUD with pagination and
search), the client list-state transitions, the tag-editing widget and the
parking-status classifier, together with theorems about them.

Strings from the JavaScript source are modelled as `List Char` (`Str`);
JavaScript numbers used as counts/indices are modelled as `Nat`, and MongoDB
documents as Lean structures. Each definition carries a comment naming the
source function it embeds.
-/

/-- JavaScript strings are modelled as lists of characters. -/
abbrev Str := List Char

/-- Models `String.prototype.toLowerCase()` character by character.
`Char.toLower` lowers only basic-latin letters; all Korean characters (and
every other non-ASCII character appearing in this repository) are fixed
points, which matches `toLowerCase` on them. -/
def lowerStr (s : Str) : Str := s.map Char.toLower

/-- Boolean prefix test on character lists (exact character equality). -/
def isPrefixOfB : Str → Str → Bool
  | [], _ => true
  | _ :: _, [] => false
  | a :: as, b :: bs => a = b && isPrefixOfB as bs

/-- `containsSub needle hay` models `hay.includes(needle)`: does `needle`
occur as a contiguous substring of `hay` (exact character comparison)? -/
def containsSub (needle : Str) : Str → Bool
  | [] => isPrefixOfB needle []
  | c :: cs => isPrefixOfB needle (c :: cs) || containsSub needle cs

/-- Models `String.prototype.trim()`: drop whitespace from both ends. -/
def trimStr (s : Str) : Str :=
  ((s.dropWhile Char.isWhitespace).reverse.dropWhile Char.isWhitespace).reverse

/-- One pattern character against one subject character, under MongoDB
`$regex` with the `i` option: `.` matches any character, any other
character matches case-insensitively.  This is faithful to the real
engine only for pattern characters that are not regex metacharacters
(see `isRegexMeta`): the model treats `*`, `+`, `(`, ... as literals,
which the engine does not. -/
def charMatch (p c : Char) : Bool :=
  p = '.' || p.toLower = c.toLower

/-- Does the pattern match a prefix of the subject?  This interprets the
fragment of the `$regex` language the development models: literal
characters plus the `.` wildcard, case-insensitive (`$options: 'i'`).
It agrees with MongoDB only on patterns all of whose characters are
either non-metacharacters or `.`; the search theorems below invoke it
only on such patterns. -/
def matchesAt : Str → Str → Bool
  | [], _ => true
  | _ :: _, [] => false
  | p :: ps, c :: cs => charMatch p c && matchesAt ps cs

/-- Unanchored case-insensitive regex search, as MongoDB evaluates
`{ field: { $regex: pat, $options: 'i' } }` — but only for patterns in
the modelled fragment: every character either a non-metacharacter
matched literally or the `.` wildcard.  On patterns containing any other
metacharacter (quantifiers, classes, groups, anchors, alternation,
escapes) the model diverges from the engine and nothing is claimed. -/
def regexSearch (pat : Str) : Str → Bool
  | [] => matchesAt pat []
  | c :: cs => matchesAt pat (c :: cs) || regexSearch pat cs

/-- The regular-expression metacharacters of the PCRE dialect MongoDB
`$regex` uses.  A pattern containing none of them is matched purely
literally by the real engine, so on metacharacter-free patterns
`regexSearch` coincides with MongoDB's matching. -/
def isRegexMeta (c : Char) : Bool :=
  c = '.' || c = '*' || c = '+' || c = '?' || c = '(' || c = ')' ||
    c = '[' || c = ']' || c = '\x7b' || c = '\x7d' || c = '\\' ||
    c = '^' || c = '$' || c = '|'

/-- Case-insensitive substring occurrence: the wording the specification
uses for search ("matched case-insensitively as a substring"). -/
def containsCI (needle hay : Str) : Bool :=
  containsSub (lowerStr needle) (lowerStr hay)

/-- Result of the parking-status classifier: a display status plus a badge
variant, as returned by `getParkingInfo` in the admin stores table. -/
structure ParkingInfo where
  status : String
  variant : String
deriving DecidableEq, Repr

/-- Embeds `getParkingInfo` from the admin stores-manage component: lower
the free-text parking field, then test the keywords in fixed priority
order. -/
def getParkingInfo (parking : Str) : ParkingInfo :=
  let lowerParking := lowerStr parking
  if containsSub (("불가").data) lowerParking then
    { status := "불가", variant := "destructive" }
  else if containsSub (("유료").data) lowerParking then
    { status := "유료", variant := "destructive" }
  else if containsSub (("무료").data) lowerParking then
    { status := "무료", variant := "default" }
  else
    { status := "정보없음", variant := "outline" }

/-- Environment of a server action: whether `connectToDatabase()` (and the
database generally) is available.  When false, the database layer throws
and the action's `catch` branch runs. -/
structure Env where
  connOk : Bool
deriving DecidableEq, Repr

/-- Environment with a working database. -/
def envOk : Env := { connOk := true }

/-- Kinds of exceptions the `try` blocks can observe: a Zod validation
error or a database/unexpected error. -/
inductive Err where
  | zod
  | db
deriving DecidableEq, Repr

/-- A stored comment document (collection `comments`). -/
structure CommentDoc where
  id : Str
  postId : Str
  author : Str
  content : Str
  email : Option Str := none
  isDeleted : Bool := false
  createdAt : Nat := 0
  updatedAt : Nat := 0
deriving DecidableEq, Repr

/-- A stored store document (collection `stores`). -/
structure StoreDoc where
  id : Str
  name : Str := []
  address : Str := []
  location : Str := []
  storeId : Str := []
  latitude : Int := 0
  longitude : Int := 0
  parking : Str := []
  since : Str := []
  phone : Option Str := none
  tags : List Str := []
  images : List Str := []
  createdAt : Nat := 0
  updatedAt : Nat := 0
deriving DecidableEq, Repr

/-- The `IStoreInput` payload accepted by `createStore` / `updateStore`.
(Coordinates are JavaScript numbers; the claims never compute with them,
so they are modelled as integers.) -/
structure IStoreInput where
  name : Str := []
  address : Str := []
  location : Str := []
  storeId : Str := []
  latitude : Int := 0
  longitude : Int := 0
  parking : Str := []
  since : Str := []
  phone : Option Str := none
  tags : List Str := []
  images : List Str := []
deriving DecidableEq, Repr

/-- Descending order by a numeric key: the relation `sort({ createdAt: -1 })`
arranges documents by. -/
def byKeyDesc (key : α → Nat) : α → α → Prop := fun a b => key b ≤ key a

instance (key : α → Nat) : DecidableRel (byKeyDesc key) :=
  fun a b => inferInstanceAs (Decidable (key b ≤ key a))

instance (key : α → Nat) : IsTotal α (byKeyDesc key) :=
  ⟨fun a b => Nat.le_total (key b) (key a)⟩

instance (key : α → Nat) : IsTrans α (byKeyDesc key) :=
  ⟨fun _ _ _ h1 h2 => Nat.le_trans h2 h1⟩

/-- Models Mongoose `.sort({ createdAt: -1 })`: a stable sort putting the
newest documents first. -/
def sortByCreatedDesc (key : α → Nat) (l : List α) : List α :=
  List.insertionSort (byKeyDesc key) l

/-- Pagination metadata as computed by the paginated listing actions. -/
structure Pagination where
  currentPage : Nat
  totalPages : Nat
  totalCount : Nat
  limit : Nat
  hasNextPage : Bool
  hasPrevPage : Bool
deriving DecidableEq, Repr

/-- `Math.ceil(totalCount / limit)` on the values these actions feed it
(non-negative integers, positive limit) equals ceiling division, which for
naturals is `(totalCount + limit - 1) / limit`. -/
def codeTotalPages (totalCount limit : Nat) : Nat :=
  (totalCount + limit - 1) / limit

/-- The pagination block shared verbatim by `getAllStoresPage` and
`getCommentsPaginated`. -/
def mkPagination (page limit totalCount : Nat) : Pagination :=
  let totalPages := codeTotalPages totalCount limit
  { currentPage := page
    totalPages := totalPages
    totalCount := totalCount
    limit := limit
    hasNextPage := decide (page < totalPages)
    hasPrevPage := decide (1 < page) }

/-- The shared find/sort/skip/limit pipeline:
`find(cond).sort({createdAt:-1}).skip((page-1)*limit).limit(limit)`. -/
def pageSlice (key : α → Nat) (page limit : Nat) (matched : List α) : List α :=
  ((sortByCreatedDesc key matched).drop ((page - 1) * limit)).take limit

/-- The `data` object returned by a successful `createComment`. -/
structure CreatedComment where
  id : Str
  postId : Str
  author : Str
  content : Str
  createdAt : Nat
deriving DecidableEq, Repr

/-- Result shape of `createComment`: always a success flag and a message;
on success additionally the created data, on a validation error the parsed
Zod issues (modelled as a flag). -/
structure CreateCommentOut where
  success : Bool
  message : String
  data : Option CreatedComment := none
  hasZodIssues : Bool := false
deriving DecidableEq, Repr

/-- Payload of `createComment` after a successful `CommentInputSchema.parse`. -/
structure CommentInput where
  postId : Str
  author : Str
  content : Str
  email : Option Str := none
deriving DecidableEq, Repr

/-- The `try` block of `createComment`.  `data : Option CommentInput`
models the untyped `data: unknown` argument: `none` is an input rejected
by `CommentInputSchema.parse` (which throws a `ZodError`); the parse runs
before `connectToDatabase`, matching the source order.  `validatedData.email
|| null` maps an empty-string email to `null`. -/
def createCommentRaw (env : Env) (data : Option CommentInput) (now : Nat)
    (newId : Str) (db : List CommentDoc) :
    Except Err (CreateCommentOut × List CommentDoc) :=
  match data with
  | none => .error .zod
  | some d =>
    if !env.connOk then .error .db
    else
      let newComment : CommentDoc :=
        { id := newId
          postId := d.postId
          author := d.author
          content := d.content
          email := match d.email with
            | some e => if e = [] then none else some e
            | none => none
          isDeleted := false
          createdAt := now
          updatedAt := now }
      .ok ({ success := true
             message := "댓글이 성공적으로 작성되었습니다."
             data := some { id := newComment.id, postId := newComment.postId,
                            author := newComment.author, content := newComment.content,
                            createdAt := newComment.createdAt } },
           db ++ [newComment])

/-- Embeds `createComment`: the `try` block plus its `catch`, which
distinguishes a `ZodError` from any other failure. -/
def createComment (env : Env) (data : Option CommentInput) (now : Nat)
    (newId : Str) (db : List CommentDoc) : CreateCommentOut × List CommentDoc :=
  match createCommentRaw env data now newId db with
  | .ok v => v
  | .error .zod =>
    ({ success := false, message := "입력 데이터가 올바르지 않습니다.",
       hasZodIssues := true }, db)
  | .error .db =>
    ({ success := false,
       message := "댓글 작성 중 오류가 발생했습니다. 다시 시도해주세요." }, db)

/-- The `$or` regex condition of `getCommentsPaginated`: author, content
or email matches the case-insensitive pattern.  A missing email never
matches. -/
def commentMatches (q : Str) (c : CommentDoc) : Bool :=
  regexSearch q c.author || regexSearch q c.content ||
    (match c.email with
     | some e => regexSearch q e
     | none => false)

/-- `searchQuery ? { $or: [...] } : {}`: `undefined` and the empty string
are falsy in JavaScript, so both select the match-all condition. -/
def commentCondition (q : Option Str) (c : CommentDoc) : Bool :=
  match q with
  | none => true
  | some s => if s = [] then true else commentMatches s c

/-- Result shape of `getCommentsPaginated`. -/
structure CommentsPageOut where
  success : Bool
  comments : Option (List CommentDoc) := none
  pagination : Option Pagination := none
  error : Option String := none
deriving DecidableEq, Repr

/-- The `try` block of `getCommentsPaginated`: count the matches, fetch
the sorted/skipped/limited page, compute the metadata. -/
def getCommentsPaginatedRaw (env : Env) (page limit : Nat) (q : Option Str)
    (db : List CommentDoc) : Except Err CommentsPageOut :=
  if !env.connOk then .error .db
  else
    let matched := db.filter (commentCondition q)
    .ok { success := true
          comments := some (pageSlice (fun c => c.createdAt) page limit matched)
          pagination := some (mkPagination page limit matched.length) }

/-- Embeds `getCommentsPaginated` (try plus catch). -/
def getCommentsPaginated (env : Env) (page limit : Nat) (q : Option Str)
    (db : List CommentDoc) : CommentsPageOut :=
  match getCommentsPaginatedRaw env page limit q db with
  | .ok v => v
  | .error _ =>
    { success := false, error := some "댓글 데이터를 불러오는데 실패했습니다." }

/-- Result shape of `deleteComment` / `restoreComment`. -/
structure ActionOut where
  success : Bool
  message : Option String := none
  error : Option String := none
deriving DecidableEq, Repr

/-- `Comments.findByIdAndUpdate(id, { isDeleted: flag, updatedAt: now })`:
rewrite the matching document, leave everything else in place. -/
def updateCommentFlag (commentId : Str) (flag : Bool) (now : Nat)
    (db : List CommentDoc) : List CommentDoc :=
  db.map (fun c =>
    if c.id = commentId then { c with isDeleted := flag, updatedAt := now } else c)

/-- The `try` block of `deleteComment`: connect, reject an empty id,
reject an unknown id, otherwise soft-delete.  The empty-id and unknown-id
paths are plain returns, not throws. -/
def deleteCommentRaw (env : Env) (commentId : Str) (now : Nat)
    (db : List CommentDoc) : Except Err (ActionOut × List CommentDoc) :=
  if !env.connOk then .error .db
  else if commentId = [] then
    .ok ({ success := false, error := some "삭제할 댓글 ID가 필요합니다." }, db)
  else
    match db.find? (fun c => c.id = commentId) with
    | none =>
      .ok ({ success := false, error := some "삭제하려는 댓글을 찾을 수 없습니다." }, db)
    | some _ =>
      .ok ({ success := true, message := some "댓글이 성공적으로 삭제되었습니다." },
           updateCommentFlag commentId true now db)

/-- Embeds `deleteComment` (try plus catch). -/
def deleteComment (env : Env) (commentId : Str) (now : Nat)
    (db : List CommentDoc) : ActionOut × List CommentDoc :=
  match deleteCommentRaw env commentId now db with
  | .ok v => v
  | .error _ =>
    ({ success := false, error := some "댓글 삭제 중 오류가 발생했습니다." }, db)

/-- The `try` block of `restoreComment`. -/
def restoreCommentRaw (env : Env) (commentId : Str) (now : Nat)
    (db : List CommentDoc) : Except Err (ActionOut × List CommentDoc) :=
  if !env.connOk then .error .db
  else if commentId = [] then
    .ok ({ success := false, error := some "복원할 댓글 ID가 필요합니다." }, db)
  else
    match db.find? (fun c => c.id = commentId) with
    | none =>
      .ok ({ success := false, error := some "복원하려는 댓글을 찾을 수 없습니다." }, db)
    | some _ =>
      .ok ({ success := true, message := some "댓글이 성공적으로 복원되었습니다." },
           updateCommentFlag commentId false now db)

/-- Embeds `restoreComment` (try plus catch). -/
def restoreComment (env : Env) (commentId : Str) (now : Nat)
    (db : List CommentDoc) : ActionOut × List CommentDoc :=
  match restoreCommentRaw env commentId now db with
  | .ok v => v
  | .error _ =>
    ({ success := false, error := some "댓글 복원 중 오류가 발생했습니다." }, db)

/-- Result shape of `createStore`. -/
structure CreateStoreOut where
  success : Bool
  message : Option String := none
  store : Option StoreDoc := none
  error : Option String := none
deriving DecidableEq, Repr

/-- `Store.create(validatedData)`: the new document with server-assigned
id and timestamps. -/
def storeFromInput (input : IStoreInput) (now : Nat) (newId : Str) : StoreDoc :=
  { id := newId
    name := input.name
    address := input.address
    location := input.location
    storeId := input.storeId
    latitude := input.latitude
    longitude := input.longitude
    parking := input.parking
    since := input.since
    phone := input.phone
    tags := input.tags
    images := input.images
    createdAt := now
    updatedAt := now }

/-- The `try` block of `createStore`: connect, validate, check the
storeId for a duplicate, then insert.  `parseOk` models the outcome of
`StoreInputSchema.parse` (the schema itself lives outside the analysed
sources); when it is false the parse throws. -/
def createStoreRaw (env : Env) (parseOk : Bool) (input : IStoreInput)
    (now : Nat) (newId : Str) (db : List StoreDoc) :
    Except Err (CreateStoreOut × List StoreDoc) :=
  if !env.connOk then .error .db
  else if !parseOk then .error .zod
  else if (db.find? (fun s => s.storeId = input.storeId)).isSome then
    .ok ({ success := false,
           error := some "이미 사용 중인 스토어 ID입니다. 다른 ID를 사용해주세요." }, db)
  else
    let newStore := storeFromInput input now newId
    .ok ({ success := true
           message := some "스토어가 성공적으로 생성되었습니다."
           store := some newStore }, db ++ [newStore])

/-- Embeds `createStore` (try plus catch; the catch does not distinguish
error kinds). -/
def createStore (env : Env) (parseOk : Bool) (input : IStoreInput)
    (now : Nat) (newId : Str) (db : List StoreDoc) :
    CreateStoreOut × List StoreDoc :=
  match createStoreRaw env parseOk input now newId db with
  | .ok v => v
  | .error _ =>
    ({ success := false, error := some "스토어 생성 중 오류가 발생했습니다." }, db)

/-- The `$or` regex condition of `getAllStoresPage`: name, address,
location, storeId or any tag matches the case-insensitive pattern. -/
def storeMatches (q : Str) (s : StoreDoc) : Bool :=
  regexSearch q s.name || regexSearch q s.address || regexSearch q s.location ||
    regexSearch q s.storeId || s.tags.any (fun t => regexSearch q t)

/-- `searchQuery ? { $or: [...] } : {}` for stores (empty string is falsy). -/
def storeCondition (q : Option Str) (s : StoreDoc) : Bool :=
  match q with
  | none => true
  | some qs => if qs = [] then true else storeMatches qs s

/-- Result shape of `getAllStoresPage`. -/
structure StoresPageOut where
  success : Bool
  stores : Option (List StoreDoc) := none
  pagination : Option Pagination := none
  error : Option String := none
deriving DecidableEq, Repr

/-- The `try` block of `getAllStoresPage`. -/
def getAllStoresPageRaw (env : Env) (page limit : Nat) (q : Option Str)
    (db : List StoreDoc) : Except Err StoresPageOut :=
  if !env.connOk then .error .db
  else
    let matched := db.filter (storeCondition q)
    .ok { success := true
          stores := some (pageSlice (fun s => s.createdAt) page limit matched)
          pagination := some (mkPagination page limit matched.length) }

/-- Embeds `getAllStoresPage` (try plus catch). -/
def getAllStoresPage (env : Env) (page limit : Nat) (q : Option Str)
    (db : List StoreDoc) : StoresPageOut :=
  match getAllStoresPageRaw env page limit q db with
  | .ok v => v
  | .error _ =>
    { success := false, error := some "스토어 데이터를 불러오는데 실패했습니다." }

/-- What the specification says a search hit is for stores: the query
occurs case-insensitively as a substring of one of the five fixed fields.
Stated from the spec's words, to be compared with `storeMatches`. -/
def storeMatchesSpec (q : Str) (s : StoreDoc) : Bool :=
  containsCI q s.name || containsCI q s.address || containsCI q s.location ||
    containsCI q s.storeId || s.tags.any (fun t => containsCI q t)

/-- What the specification says a search hit is for comments (spec's
words, to be compared with `commentMatches`). -/
def commentMatchesSpec (q : Str) (c : CommentDoc) : Bool :=
  containsCI q c.author || containsCI q c.content ||
    (match c.email with
     | some e => containsCI q e
     | none => false)

/-- Client-side list state of the admin/stores, admin/comments and public
post-list components: the search input, its committed debounced copy, the
category filter, the current page and page size, together with the
`totalPages` the component last received in the fetched pagination
metadata. -/
structure ListState where
  searchTerm : Str := []
  debouncedSearchTerm : Str := []
  category : Str := []
  currentPage : Nat := 1
  pageSize : Nat := 10
  totalPages : Nat := 1
deriving DecidableEq, Repr

/-- Embeds `goToPage` (identical in all three components):
`setCurrentPage(page)` with the argument used as-is. -/
def goToPage (s : ListState) (page : Nat) : ListState :=
  { s with currentPage := page }

/-- Embeds the debounce effect's commit: after 500ms of stable input it
runs `setDebouncedSearchTerm(searchTerm); setCurrentPage(1)`. -/
def commitDebouncedSearch (s : ListState) : ListState :=
  { s with debouncedSearchTerm := s.searchTerm, currentPage := 1 }

/-- Embeds the category-change effect of the post list:
`setSelectedCategory(c)` plus the effect `setCurrentPage(1)`. -/
def changeCategory (s : ListState) (c : Str) : ListState :=
  { s with category := c, currentPage := 1 }

/-- Embeds `handlePageSizeChange`: set the size and go back to page 1. -/
def handlePageSizeChange (s : ListState) (n : Nat) : ListState :=
  { s with pageSize := n, currentPage := 1 }

/-- Embeds `handleTagAdd` from the store add/edit dialogs: trim, drop the
empty result, drop a case-insensitive duplicate, otherwise append. -/
def handleTagAdd (tags : List Str) (newTag : Str) : List Str :=
  let trimmed := trimStr newTag
  if trimmed = [] then tags
  else
    let lowerTags := tags.map lowerStr
    if lowerTags.contains (lowerStr trimmed) then tags
    else tags ++ [trimmed]

/-- Embeds `handleTagRemove`: keep exactly the tags that differ from the
given string (`tag !== tagToRemove`). -/
def handleTagRemove (tags : List Str) (tagToRemove : Str) : List Str :=
  tags.filter (fun tag => tag ≠ tagToRemove)

/-- A store document with the given creation time and defaulted fields,
used to build concrete collections. -/
def mkStoreDoc (i : Nat) : StoreDoc :=
  { id := [], createdAt := i, updatedAt := i }

/-- A concrete collection of 23 stores (the spec's example scenario). -/
def db23 : List StoreDoc := (List.range 23).map mkStoreDoc

/-- A concrete collection of 3 stores. -/
def db3 : List StoreDoc := (List.range 3).map mkStoreDoc

/-- A store whose name is "abc", for the C7 counterexample. -/
def cxStore : StoreDoc := { id := [], name := ("abc").data }

/-- Unfolding `Char.ofNat` at a valid code point. -/
theorem char_toNat_ofNat_of_valid {n : Nat} (h : n.isValidChar) :
    (Char.ofNat n).toNat = n := by
  simp [Char.ofNat, dif_pos h, Char.ofNatAux, Char.toNat, UInt32.toNat]

/-- `Char.toLower` never produces a character outside the basic-latin
lowercase range unless it returns its argument unchanged: for a target
character above code point 122, `toLower c = k` forces `c = k`. -/
theorem toLower_eq_iff_of_gt {k : Char} (hk : 122 < k.toNat) (c : Char) :
    Char.toLower c = k ↔ c = k := by
  show (if c.toNat ≥ 65 ∧ c.toNat ≤ 90 then Char.ofNat (c.toNat + 32) else c) = k ↔ c = k
  by_cases hcond : c.toNat ≥ 65 ∧ c.toNat ≤ 90
  · rw [if_pos hcond]
    constructor
    · intro h
      exfalso
      have hv : (c.toNat + 32).isValidChar := Or.inl (by omega)
      have hval := char_toNat_ofNat_of_valid hv
      rw [h] at hval
      omega
    · intro h
      subst h
      exact absurd hcond (by omega)
  · rw [if_neg hcond]

/-- Prefix tests ignore `toLower` on the haystack when every character of
the needle lies above the basic-latin range. -/
theorem isPrefixOfB_lower_of_fixed :
    ∀ (needle hay : Str), (∀ k ∈ needle, 122 < k.toNat) →
      isPrefixOfB needle (lowerStr hay) = isPrefixOfB needle hay
  | [], hay, _ => by cases hay <;> rfl
  | _ :: _, [], _ => rfl
  | a :: as, b :: bs, hn => by
    have hk : 122 < a.toNat := hn a (by simp)
    have hiff : (a = Char.toLower b) ↔ (a = b) := by
      rw [eq_comm, toLower_eq_iff_of_gt hk, eq_comm]
    show (decide (a = Char.toLower b) && isPrefixOfB as (lowerStr bs))
        = (decide (a = b) && isPrefixOfB as bs)
    rw [isPrefixOfB_lower_of_fixed as bs (fun k hkk => hn k (by simp [hkk])),
      decide_eq_decide.mpr hiff]

/-- Substring tests ignore `toLower` on the haystack when every character
of the needle lies above the basic-latin range (e.g. Korean keywords). -/
theorem containsSub_lowerStr_of_fixed (needle : Str)
    (hn : ∀ k ∈ needle, 122 < k.toNat) :
    ∀ hay, containsSub needle (lowerStr hay) = containsSub needle hay
  | [] => rfl
  | c :: cs => by
    show (isPrefixOfB needle (lowerStr (c :: cs)) || containsSub needle (lowerStr cs))
        = (isPrefixOfB needle (c :: cs) || containsSub needle cs)
    rw [isPrefixOfB_lower_of_fixed needle (c :: cs) hn,
      containsSub_lowerStr_of_fixed needle hn cs]

/-- C10: `getParkingInfo` is a total function on strings matching the
keywords with the fixed priority 불가 over 유료 over 무료: a string
containing '불가' classifies as '불가' regardless of other keywords;
otherwise containing '유료' gives '유료'; otherwise containing '무료'
gives '무료'; otherwise the status is '정보없음'.  (The classifier works
on the lowercased string, so the keyword matching is case-insensitive;
for the Korean keywords lowercasing is invariant, so occurrence in the
original string is equivalent.) -/
theorem c10_getParkingInfo_priority (parking : Str) :
    (containsSub (("불가").data) parking = true →
        (getParkingInfo parking).status = "불가") ∧
    (containsSub (("불가").data) parking = false →
      containsSub (("유료").data) parking = true →
        (getParkingInfo parking).status = "유료") ∧
    (containsSub (("불가").data) parking = false →
      containsSub (("유료").data) parking = false →
      containsSub (("무료").data) parking = true →
        (getParkingInfo parking).status = "무료") ∧
    (containsSub (("불가").data) parking = false →
      containsSub (("유료").data) parking = false →
      containsSub (("무료").data) parking = false →
        (getParkingInfo parking).status = "정보없음") := by
  have h1 := containsSub_lowerStr_of_fixed (("불가").data) (by decide) parking
  have h2 := containsSub_lowerStr_of_fixed (("유료").data) (by decide) parking
  have h3 := containsSub_lowerStr_of_fixed (("무료").data) (by decide) parking
  refine ⟨?_, ?_, ?_, ?_⟩
  · intro hb
    simp [getParkingInfo, h1, hb]
  · intro hb hy
    simp [getParkingInfo, h1, h2, hb, hy]
  · intro hb hy hm
    simp [getParkingInfo, h1, h2, h3, hb, hy, hm]
  · intro hb hy hm
    simp [getParkingInfo, h1, h2, h3, hb, hy, hm]

/-- Witness for C10 at a concrete input: "무료 2시간" contains 무료 and
neither 불가 nor 유료, and classifies as 무료. -/
theorem c10_getParkingInfo_priority_witness :
    (getParkingInfo (("무료 2시간").data)).status = "무료" :=
  (c10_getParkingInfo_priority (("무료 2시간").data)).2.2.1
    (by decide) (by decide) (by decide)

theorem sortByCreatedDesc_perm (key : α → Nat) (l : List α) :
    List.Perm (sortByCreatedDesc key l) l :=
  List.perm_insertionSort (byKeyDesc key) l

theorem sortByCreatedDesc_sorted (key : α → Nat) (l : List α) :
    List.Sorted (byKeyDesc key) (sortByCreatedDesc key l) :=
  List.sorted_insertionSort (byKeyDesc key) l

theorem sortByCreatedDesc_length (key : α → Nat) (l : List α) :
    (sortByCreatedDesc key l).length = l.length :=
  (sortByCreatedDesc_perm key l).length_eq

/-- `getAllStoresPage` on a working database, unfolded. -/
theorem getAllStoresPage_ok (env : Env) (hconn : env.connOk = true)
    (page limit : Nat) (q : Option Str) (db : List StoreDoc) :
    getAllStoresPage env page limit q db =
      { success := true
        stores := some (pageSlice (fun s => s.createdAt) page limit
          (db.filter (storeCondition q)))
        pagination := some (mkPagination page limit
          (db.filter (storeCondition q)).length)
        error := none } := by
  simp [getAllStoresPage, getAllStoresPageRaw, hconn]

/-- `getCommentsPaginated` on a working database, unfolded. -/
theorem getCommentsPaginated_ok (env : Env) (hconn : env.connOk = true)
    (page limit : Nat) (q : Option Str) (db : List CommentDoc) :
    getCommentsPaginated env page limit q db =
      { success := true
        comments := some (pageSlice (fun c => c.createdAt) page limit
          (db.filter (commentCondition q)))
        pagination := some (mkPagination page limit
          (db.filter (commentCondition q)).length)
        error := none } := by
  simp [getCommentsPaginated, getCommentsPaginatedRaw, hconn]

/-- The code's total-page count is ceiling division. -/
theorem codeTotalPages_eq_ceilDiv (tc limit : Nat) :
    codeTotalPages tc limit = tc ⌈/⌉ limit := rfl

/-- Ceiling characterisation of the code's total-page count: it is the
least `k` with `totalCount ≤ limit * k`. -/
theorem codeTotalPages_galois (tc limit : Nat) (hl : 0 < limit) (k : Nat) :
    codeTotalPages tc limit ≤ k ↔ tc ≤ limit * k := by
  rw [codeTotalPages_eq_ceilDiv]
  exact ceilDiv_le_iff_le_mul hl

/-- Dropping past the end of the matched set empties the page. -/
theorem pageSlice_eq_nil (key : α → Nat) (page limit : Nat) (l : List α)
    (h : l.length ≤ (page - 1) * limit) : pageSlice key page limit l = [] := by
  unfold pageSlice
  rw [List.drop_eq_nil_of_le, List.take_nil]
  rw [sortByCreatedDesc_length]
  exact h

/-- C1: for every paginated listing call (getAllStoresPage /
getCommentsPaginated) with page ≥ 1 and limit ≥ 1 that succeeds, the
returned metadata satisfies totalPages = ceil(totalCount / limit) (stated
both as ceiling division and by its Galois characterisation: the least k
with totalCount ≤ limit·k), hasNextPage = (page < totalPages) and
hasPrevPage = (page > 1); and in the concrete 23-store scenario with
limit 10, page 1 returns 10 records with totalPages = 3 and hasNextPage,
while page 3 returns 3 records without hasNextPage. -/
theorem c1_pagination_metadata :
    (∀ (env : Env) (page limit : Nat) (q : Option Str) (db : List StoreDoc),
      env.connOk = true → 1 ≤ page → 1 ≤ limit →
      ∃ p : Pagination,
        (getAllStoresPage env page limit q db).pagination = some p ∧
        p.currentPage = page ∧ p.limit = limit ∧
        p.totalPages = p.totalCount ⌈/⌉ limit ∧
        (∀ k, p.totalPages ≤ k ↔ p.totalCount ≤ limit * k) ∧
        p.hasNextPage = decide (page < p.totalPages) ∧
        p.hasPrevPage = decide (1 < page)) ∧
    (∀ (env : Env) (page limit : Nat) (q : Option Str) (db : List CommentDoc),
      env.connOk = true → 1 ≤ page → 1 ≤ limit →
      ∃ p : Pagination,
        (getCommentsPaginated env page limit q db).pagination = some p ∧
        p.currentPage = page ∧ p.limit = limit ∧
        p.totalPages = p.totalCount ⌈/⌉ limit ∧
        (∀ k, p.totalPages ≤ k ↔ p.totalCount ≤ limit * k) ∧
        p.hasNextPage = decide (page < p.totalPages) ∧
        p.hasPrevPage = decide (1 < page)) ∧
    ((getAllStoresPage envOk 1 10 none db23).pagination =
        some ⟨1, 3, 23, 10, true, false⟩ ∧
      Option.map List.length (getAllStoresPage envOk 1 10 none db23).stores =
        some 10 ∧
      (getAllStoresPage envOk 3 10 none db23).pagination =
        some ⟨3, 3, 23, 10, false, true⟩ ∧
      Option.map List.length (getAllStoresPage envOk 3 10 none db23).stores =
        some 3) := by
  refine ⟨?_, ?_, ?_⟩
  · intro env page limit q db hconn hp hl
    rw [getAllStoresPage_ok env hconn]
    exact ⟨mkPagination page limit (db.filter (storeCondition q)).length,
      rfl, rfl, rfl, rfl,
      fun k => codeTotalPages_galois _ limit (by omega) k, rfl, rfl⟩
  · intro env page limit q db hconn hp hl
    rw [getCommentsPaginated_ok env hconn]
    exact ⟨mkPagination page limit (db.filter (commentCondition q)).length,
      rfl, rfl, rfl, rfl,
      fun k => codeTotalPages_galois _ limit (by omega) k, rfl, rfl⟩
  · refine ⟨by decide, by decide, by decide, by decide⟩

/-- Witness for C1 at a concrete call (page 2, limit 7, empty collection). -/
theorem c1_pagination_metadata_witness :
    ∃ p : Pagination,
      (getAllStoresPage envOk 2 7 none []).pagination = some p ∧
      p.currentPage = 2 ∧ p.limit = 7 ∧
      p.totalPages = p.totalCount ⌈/⌉ 7 ∧
      (∀ k, p.totalPages ≤ k ↔ p.totalCount ≤ 7 * k) ∧
      p.hasNextPage = decide (2 < p.totalPages) ∧
      p.hasPrevPage = decide (1 < 2) :=
  c1_pagination_metadata.1 envOk 2 7 none [] rfl (by decide) (by decide)

/-- C2: requesting a page strictly beyond totalPages (page ≥ 1, limit ≥ 1)
still succeeds, returns an empty record list, and the metadata is computed
by the same formulas, in particular hasNextPage = false. -/
theorem c2_page_beyond_totalPages :
    (∀ (env : Env) (page limit : Nat) (q : Option Str) (db : List StoreDoc)
        (p : Pagination),
      env.connOk = true → 1 ≤ limit →
      (getAllStoresPage env page limit q db).pagination = some p →
      p.totalPages < page →
      (getAllStoresPage env page limit q db).success = true ∧
      (getAllStoresPage env page limit q db).stores = some [] ∧
      p.hasNextPage = false ∧ p.hasPrevPage = decide (1 < page) ∧
      p.totalPages = p.totalCount ⌈/⌉ limit) ∧
    (∀ (env : Env) (page limit : Nat) (q : Option Str) (db : List CommentDoc)
        (p : Pagination),
      env.connOk = true → 1 ≤ limit →
      (getCommentsPaginated env page limit q db).pagination = some p →
      p.totalPages < page →
      (getCommentsPaginated env page limit q db).success = true ∧
      (getCommentsPaginated env page limit q db).comments = some [] ∧
      p.hasNextPage = false ∧ p.hasPrevPage = decide (1 < page) ∧
      p.totalPages = p.totalCount ⌈/⌉ limit) := by
  constructor
  · intro env page limit q db p hconn hl hpag hlt
    rw [getAllStoresPage_ok env hconn] at hpag ⊢
    have hp : p = mkPagination page limit (db.filter (storeCondition q)).length :=
      (Option.some.inj hpag).symm
    subst hp
    simp only [mkPagination] at hlt
    have hcount : (db.filter (storeCondition q)).length ≤ (page - 1) * limit := by
      have h2 := (codeTotalPages_galois (db.filter (storeCondition q)).length limit
        (by omega) (page - 1)).mp (by omega)
      rw [Nat.mul_comm] at h2
      exact h2
    refine ⟨rfl, ?_, ?_, rfl, rfl⟩
    · rw [pageSlice_eq_nil _ page limit _ hcount]
    · simp only [mkPagination]
      exact decide_eq_false (by omega)
  · intro env page limit q db p hconn hl hpag hlt
    rw [getCommentsPaginated_ok env hconn] at hpag ⊢
    have hp : p = mkPagination page limit (db.filter (commentCondition q)).length :=
      (Option.some.inj hpag).symm
    subst hp
    simp only [mkPagination] at hlt
    have hcount : (db.filter (commentCondition q)).length ≤ (page - 1) * limit := by
      have h2 := (codeTotalPages_galois (db.filter (commentCondition q)).length limit
        (by omega) (page - 1)).mp (by omega)
      rw [Nat.mul_comm] at h2
      exact h2
    refine ⟨rfl, ?_, ?_, rfl, rfl⟩
    · rw [pageSlice_eq_nil _ page limit _ hcount]
    · simp only [mkPagination]
      exact decide_eq_false (by omega)

/-- Witness for C2: page 5 of a 3-store collection with limit 2
(totalPages = 2) succeeds with an empty list. -/
theorem c2_page_beyond_totalPages_witness :
    (getAllStoresPage envOk 5 2 none db3).success = true ∧
    (getAllStoresPage envOk 5 2 none db3).stores = some [] ∧
    (⟨5, 2, 3, 2, false, true⟩ : Pagination).hasNextPage = false ∧
    (⟨5, 2, 3, 2, false, true⟩ : Pagination).hasPrevPage = decide (1 < 5) ∧
    (⟨5, 2, 3, 2, false, true⟩ : Pagination).totalPages =
      (⟨5, 2, 3, 2, false, true⟩ : Pagination).totalCount ⌈/⌉ 2 :=
  c2_page_beyond_totalPages.1 envOk 5 2 none db3 ⟨5, 2, 3, 2, false, true⟩
    rfl (by decide) (by decide) (by decide)

/-- C3: for every store collection and every validated input whose
storeId already occurs in the collection, `createStore` returns
success = false with the conflict error message, and the stored
collection is unchanged. -/
theorem c3_createStore_duplicate (env : Env) (input : IStoreInput)
    (now : Nat) (newId : Str) (db : List StoreDoc)
    (hconn : env.connOk = true)
    (hdup : ∃ s ∈ db, s.storeId = input.storeId) :
    (createStore env true input now newId db).1.success = false ∧
    (createStore env true input now newId db).1.error =
      some "이미 사용 중인 스토어 ID입니다. 다른 ID를 사용해주세요." ∧
    (createStore env true input now newId db).2 = db := by
  have hfind : (db.find? (fun s => s.storeId = input.storeId)).isSome := by
    rw [List.find?_isSome]
    obtain ⟨s, hs, hid⟩ := hdup
    exact ⟨s, hs, by simp [hid]⟩
  simp [createStore, createStoreRaw, hconn, hfind]

/-- Witness for C3: inserting a second store with storeId "S1". -/
theorem c3_createStore_duplicate_witness :
    (createStore envOk true { storeId := ("S1").data } 7 (("x").data)
        [{ id := [], storeId := ("S1").data }]).1.success = false ∧
    (createStore envOk true { storeId := ("S1").data } 7 (("x").data)
        [{ id := [], storeId := ("S1").data }]).1.error =
      some "이미 사용 중인 스토어 ID입니다. 다른 ID를 사용해주세요." ∧
    (createStore envOk true { storeId := ("S1").data } 7 (("x").data)
        [{ id := [], storeId := ("S1").data }]).2 =
      [{ id := [], storeId := ("S1").data }] :=
  c3_createStore_duplicate envOk { storeId := ("S1").data } 7 (("x").data)
    [{ id := [], storeId := ("S1").data }] rfl
    ⟨{ id := [], storeId := ("S1").data }, by simp, rfl⟩

/-- `find?` over the rewrite performed by `findByIdAndUpdate`: the first
document with the given id gets exactly its `isDeleted`/`updatedAt`
fields replaced. -/
theorem find?_updateCommentFlag (commentId : Str) (flag : Bool) (now : Nat) :
    ∀ (db : List CommentDoc) (c : CommentDoc),
      db.find? (fun x => x.id = commentId) = some c →
      (updateCommentFlag commentId flag now db).find? (fun x => x.id = commentId) =
        some { c with isDeleted := flag, updatedAt := now }
  | [], c, h => by simp at h
  | a :: db, c, h => by
    by_cases ha : a.id = commentId
    · have hc : c = a := by
        rw [List.find?_cons_of_pos _ (by simp [ha])] at h
        exact (Option.some.inj h).symm
      rw [hc]
      show List.find? _ ((if a.id = commentId then
        { a with isDeleted := flag, updatedAt := now } else a) :: _) = _
      rw [if_pos ha]
      exact List.find?_cons_of_pos _ (by simp [ha])
    · rw [List.find?_cons_of_neg _ (by simp [ha])] at h
      show List.find? _ ((if a.id = commentId then
        { a with isDeleted := flag, updatedAt := now } else a) :: _) = _
      rw [if_neg ha, List.find?_cons_of_neg _ (by simp [ha])]
      exact find?_updateCommentFlag commentId flag now db c h

/-- `findByIdAndUpdate` never removes documents. -/
theorem updateCommentFlag_length (commentId : Str) (flag : Bool) (now : Nat)
    (db : List CommentDoc) :
    (updateCommentFlag commentId flag now db).length = db.length :=
  List.length_map db _

/-- `deleteComment` on an existing id, unfolded. -/
theorem deleteComment_found (env : Env) (commentId : Str) (now : Nat)
    (db : List CommentDoc) (c : CommentDoc)
    (hconn : env.connOk = true) (hne : commentId ≠ [])
    (hfind : db.find? (fun x => x.id = commentId) = some c) :
    deleteComment env commentId now db =
      ({ success := true, message := some "댓글이 성공적으로 삭제되었습니다." },
        updateCommentFlag commentId true now db) := by
  simp [deleteComment, deleteCommentRaw, hconn, hne, hfind]

/-- `restoreComment` on an existing id, unfolded. -/
theorem restoreComment_found (env : Env) (commentId : Str) (now : Nat)
    (db : List CommentDoc) (c : CommentDoc)
    (hconn : env.connOk = true) (hne : commentId ≠ [])
    (hfind : db.find? (fun x => x.id = commentId) = some c) :
    restoreComment env commentId now db =
      ({ success := true, message := some "댓글이 성공적으로 복원되었습니다." },
        updateCommentFlag commentId false now db) := by
  simp [restoreComment, restoreCommentRaw, hconn, hne, hfind]

/-- Writing the flag a document already carries changes nothing but the
timestamp. -/
theorem commentDoc_update_flag_self (c : CommentDoc) (flag : Bool) (t : Nat)
    (h : c.isDeleted = flag) :
    ({ c with isDeleted := flag, updatedAt := t } : CommentDoc) =
      { c with updatedAt := t } := by
  cases c
  simp_all

/-- C4: soft-deleting then restoring an existing comment succeeds twice;
after the delete the stored document is the original with isDeleted = true
and updatedAt = t1, after the restore it is the original with
isDeleted = false and updatedAt = t2 (every other field as before);
neither step removes a document. -/
theorem c4_soft_delete_then_restore (env : Env) (db : List CommentDoc)
    (commentId : Str) (c : CommentDoc) (t1 t2 : Nat)
    (hconn : env.connOk = true) (hne : commentId ≠ [])
    (hfind : db.find? (fun x => x.id = commentId) = some c) :
    (deleteComment env commentId t1 db).1.success = true ∧
    (deleteComment env commentId t1 db).2.find? (fun x => x.id = commentId) =
      some { c with isDeleted := true, updatedAt := t1 } ∧
    (deleteComment env commentId t1 db).2.length = db.length ∧
    (restoreComment env commentId t2 (deleteComment env commentId t1 db).2).1.success
      = true ∧
    (restoreComment env commentId t2 (deleteComment env commentId t1 db).2).2.find?
      (fun x => x.id = commentId) =
      some { c with isDeleted := false, updatedAt := t2 } ∧
    (restoreComment env commentId t2 (deleteComment env commentId t1 db).2).2.length
      = db.length := by
  have h1 := deleteComment_found env commentId t1 db c hconn hne hfind
  have hfind1 := find?_updateCommentFlag commentId true t1 db c hfind
  have h2 := restoreComment_found env commentId t2
    (updateCommentFlag commentId true t1 db)
    { c with isDeleted := true, updatedAt := t1 } hconn hne hfind1
  have hfind2 := find?_updateCommentFlag commentId false t2
    (updateCommentFlag commentId true t1 db)
    { c with isDeleted := true, updatedAt := t1 } hfind1
  refine ⟨by simp [h1], by simp [h1, hfind1], by simp [h1, updateCommentFlag_length],
    by simp [h1, h2], ?_, by simp [h1, h2, updateCommentFlag_length]⟩
  rw [h1]
  show (restoreComment env commentId t2 (updateCommentFlag commentId true t1 db)).2.find?
      (fun x => x.id = commentId) = some { c with isDeleted := false, updatedAt := t2 }
  rw [h2]
  exact hfind2

/-- Witness for C4 on a one-comment collection. -/
theorem c4_soft_delete_then_restore_witness :
    (deleteComment envOk (("c1").data) 5
        [{ id := ("c1").data, postId := [], author := [], content := [] }]).1.success
      = true ∧
    (deleteComment envOk (("c1").data) 5
        [{ id := ("c1").data, postId := [], author := [], content := [] }]).2.find?
        (fun x => x.id = ("c1").data) =
      some { id := ("c1").data, postId := [], author := [], content := [],
             isDeleted := true, updatedAt := 5 } ∧
    (deleteComment envOk (("c1").data) 5
        [{ id := ("c1").data, postId := [], author := [], content := [] }]).2.length
      = 1 ∧
    (restoreComment envOk (("c1").data) 9
        (deleteComment envOk (("c1").data) 5
          [{ id := ("c1").data, postId := [], author := [], content := [] }]).2).1.success
      = true ∧
    (restoreComment envOk (("c1").data) 9
        (deleteComment envOk (("c1").data) 5
          [{ id := ("c1").data, postId := [], author := [], content := [] }]).2).2.find?
        (fun x => x.id = ("c1").data) =
      some { id := ("c1").data, postId := [], author := [], content := [],
             isDeleted := false, updatedAt := 9 } ∧
    (restoreComment envOk (("c1").data) 9
        (deleteComment envOk (("c1").data) 5
          [{ id := ("c1").data, postId := [], author := [], content := [] }]).2).2.length
      = 1 :=
  c4_soft_delete_then_restore envOk
    [{ id := ("c1").data, postId := [], author := [], content := [] }]
    (("c1").data)
    { id := ("c1").data, postId := [], author := [], content := [] }
    5 9 rfl (by decide) (by decide)

/-- C9: neither soft-delete nor restore inspects the current flag:
deleting an already-deleted comment succeeds and leaves the document
identical except updatedAt, and restoring an already-active comment
succeeds and leaves the document identical except updatedAt. -/
theorem c9_delete_restore_idempotent (env : Env) (db : List CommentDoc)
    (commentId : Str) (c : CommentDoc) (t : Nat)
    (hconn : env.connOk = true) (hne : commentId ≠ [])
    (hfind : db.find? (fun x => x.id = commentId) = some c) :
    (c.isDeleted = true →
      (deleteComment env commentId t db).1.success = true ∧
      (deleteComment env commentId t db).2.find? (fun x => x.id = commentId) =
        some { c with updatedAt := t }) ∧
    (c.isDeleted = false →
      (restoreComment env commentId t db).1.success = true ∧
      (restoreComment env commentId t db).2.find? (fun x => x.id = commentId) =
        some { c with updatedAt := t }) := by
  have h1 := deleteComment_found env commentId t db c hconn hne hfind
  have h2 := restoreComment_found env commentId t db c hconn hne hfind
  have hf1 := find?_updateCommentFlag commentId true t db c hfind
  have hf2 := find?_updateCommentFlag commentId false t db c hfind
  constructor
  · intro hdel
    rw [commentDoc_update_flag_self c true t hdel] at hf1
    exact ⟨by simp [h1], by simp [h1, hf1]⟩
  · intro hact
    rw [commentDoc_update_flag_self c false t hact] at hf2
    exact ⟨by simp [h2], by simp [h2, hf2]⟩

/-- Witness for C9: delete an already-deleted comment. -/
theorem c9_delete_restore_idempotent_witness :
    (deleteComment envOk (("c2").data) 8
        [{ id := ("c2").data, postId := [], author := [], content := [],
           isDeleted := true, updatedAt := 3 }]).1.success = true ∧
    (deleteComment envOk (("c2").data) 8
        [{ id := ("c2").data, postId := [], author := [], content := [],
           isDeleted := true, updatedAt := 3 }]).2.find?
        (fun x => x.id = ("c2").data) =
      some { id := ("c2").data, postId := [], author := [], content := [],
             isDeleted := true, updatedAt := 8 } :=
  (c9_delete_restore_idempotent envOk
    [{ id := ("c2").data, postId := [], author := [], content := [],
       isDeleted := true, updatedAt := 3 }]
    (("c2").data)
    { id := ("c2").data, postId := [], author := [], content := [],
      isDeleted := true, updatedAt := 3 }
    8 rfl (by decide) (by decide)).1 rfl

/-- C5 counterexample: for the tag list `[]` and the new tag `" "`, the
trimmed form (the empty string) equals no existing tag even ignoring
case, yet `handleTagAdd` does not append it — it is a no-op — so the
claim's "otherwise it appends the trimmed tag at the end" fails. -/
theorem c5_counterexample :
    (∀ t ∈ ([] : List Str), lowerStr t ≠ lowerStr (trimStr ((" ").data))) ∧
    handleTagAdd [] ((" ").data) ≠ [trimStr ((" ").data)] := by
  decide

/-- Unfolding lemma for `handleTagAdd`. -/
theorem handleTagAdd_eq (tags : List Str) (newTag : Str) :
    handleTagAdd tags newTag =
      if trimStr newTag = [] then tags
      else if (tags.map lowerStr).contains (lowerStr (trimStr newTag)) then tags
      else tags ++ [trimStr newTag] := rfl

/-- C5 (amended): add-tag with a whitespace-only input (empty trimmed
form) is a silent no-op; with a non-empty trimmed form it is a silent
no-op when some existing tag equals it ignoring case and otherwise
appends the trimmed tag at the end; remove-tag removes exactly the tags
equal to the given string by exact comparison; the operations keep the
lowered tag list duplicate-free; and adding "Seoul" then "seoul" to an
empty list stores exactly the one tag "Seoul". -/
theorem c5_tag_widget (tags : List Str) (newTag : Str) :
    (trimStr newTag = [] → handleTagAdd tags newTag = tags) ∧
    (trimStr newTag ≠ [] →
      (∃ t ∈ tags, lowerStr t = lowerStr (trimStr newTag)) →
      handleTagAdd tags newTag = tags) ∧
    (trimStr newTag ≠ [] →
      (∀ t ∈ tags, lowerStr t ≠ lowerStr (trimStr newTag)) →
      handleTagAdd tags newTag = tags ++ [trimStr newTag]) ∧
    (∀ r, handleTagRemove tags r = tags.filter (fun tag => tag ≠ r)) ∧
    ((tags.map lowerStr).Nodup → ((handleTagAdd tags newTag).map lowerStr).Nodup) ∧
    handleTagAdd (handleTagAdd [] (("Seoul").data)) (("seoul").data) =
      [("Seoul").data] := by
  have hmemiff : ((tags.map lowerStr).contains (lowerStr (trimStr newTag)) = true) ↔
      ∃ t ∈ tags, lowerStr t = lowerStr (trimStr newTag) := by
    rw [List.contains_iff_exists_mem_beq]
    constructor
    · rintro ⟨x, hx, hbeq⟩
      obtain ⟨t, ht, rfl⟩ := List.mem_map.mp hx
      exact ⟨t, ht, (beq_iff_eq.mp hbeq).symm⟩
    · rintro ⟨t, ht, heq⟩
      exact ⟨lowerStr t, List.mem_map_of_mem _ ht, beq_iff_eq.mpr heq.symm⟩
  refine ⟨?_, ?_, ?_, fun r => rfl, ?_, by decide⟩
  · intro hnil
    rw [handleTagAdd_eq, if_pos hnil]
  · intro hne hdup
    rw [handleTagAdd_eq, if_neg hne, if_pos (hmemiff.mpr hdup)]
  · intro hne hnodup
    have hc : ¬ ((tags.map lowerStr).contains (lowerStr (trimStr newTag)) = true) := by
      rw [hmemiff]
      rintro ⟨t, ht, heq⟩
      exact hnodup t ht heq
    rw [handleTagAdd_eq, if_neg hne, if_neg hc]
  · intro hnd
    by_cases hnil : trimStr newTag = []
    · rw [handleTagAdd_eq, if_pos hnil]
      exact hnd
    by_cases hc : (tags.map lowerStr).contains (lowerStr (trimStr newTag)) = true
    · rw [handleTagAdd_eq, if_neg hnil, if_pos hc]
      exact hnd
    · have hnotmem : lowerStr (trimStr newTag) ∉ tags.map lowerStr := by
        intro hmem
        exact hc (List.contains_iff_exists_mem_beq.mpr
          ⟨lowerStr (trimStr newTag), hmem, beq_iff_eq.mpr rfl⟩)
      rw [handleTagAdd_eq, if_neg hnil, if_neg hc, List.map_append]
      rw [List.nodup_append]
      refine ⟨hnd, List.nodup_singleton _, ?_⟩
      intro x hx hx1
      simp only [List.map_cons, List.map_nil, List.mem_singleton] at hx1
      subst hx1
      exact hnotmem hx

/-- Witness for C5: adding "busan" to ["Seoul"] appends it. -/
theorem c5_tag_widget_witness :
    handleTagAdd [("Seoul").data] (("busan").data) =
      [("Seoul").data] ++ [trimStr (("busan").data)] :=
  (c5_tag_widget [("Seoul").data] (("busan").data)).2.2.1
    (by decide) (by decide)

/-- C6 counterexample: `goToPage` applies no clamping — navigating to
page 5 while the fetched metadata says totalPages = 3 leaves
currentPage = 5, outside [1, totalPages]. -/
theorem c6_counterexample :
    (goToPage { totalPages := 3 } 5).currentPage = 5 ∧
    ¬ ((goToPage { totalPages := 3 } 5).currentPage ≤
        (goToPage { totalPages := 3 } 5).totalPages) := by
  decide

/-- C6 (amended): `goToPage` stores the requested page as-is (no
clamping), so the invariant 1 ≤ currentPage ≤ totalPages holds after a
navigation only when the requested page already lies in that interval
(which is what the rendered pagination buttons pass); committing a
debounced search term and changing the category both reset currentPage
to 1. -/
theorem c6_list_state_transitions (s : ListState) (page : Nat) (c : Str) :
    (goToPage s page).currentPage = page ∧
    (goToPage s page).totalPages = s.totalPages ∧
    (1 ≤ page → page ≤ s.totalPages →
      1 ≤ (goToPage s page).currentPage ∧
      (goToPage s page).currentPage ≤ (goToPage s page).totalPages) ∧
    (commitDebouncedSearch s).currentPage = 1 ∧
    (commitDebouncedSearch s).debouncedSearchTerm = s.searchTerm ∧
    (changeCategory s c).currentPage = 1 ∧
    (changeCategory s c).category = c := by
  exact ⟨rfl, rfl, fun h1 h2 => ⟨h1, h2⟩, rfl, rfl, rfl, rfl⟩

/-- Witness for C6 at a concrete state: navigating to page 2 with
totalPages = 3. -/
theorem c6_list_state_transitions_witness :
    1 ≤ (goToPage { totalPages := 3 } 2).currentPage ∧
    (goToPage { totalPages := 3 } 2).currentPage ≤
      (goToPage { totalPages := 3 } 2).totalPages :=
  (c6_list_state_transitions { totalPages := 3 } 2 []).2.2.1
    (by decide) (by decide)

/-- On patterns without the `.` wildcard, the regex prefix match is the
case-insensitive literal prefix test. -/
theorem matchesAt_of_no_dot :
    ∀ (pat : Str), ('.') ∉ pat → ∀ hay,
      matchesAt pat hay = isPrefixOfB (lowerStr pat) (lowerStr hay)
  | [], _, hay => by cases hay <;> rfl
  | p :: ps, hp, [] => rfl
  | p :: ps, hp, c :: cs => by
    have hpd : p ≠ '.' := fun h => hp (h ▸ List.mem_cons_self p ps)
    have hcm : charMatch p c = decide (Char.toLower p = Char.toLower c) := by
      unfold charMatch
      rw [decide_eq_false hpd, Bool.false_or]
    show (charMatch p c && matchesAt ps cs)
        = (decide (Char.toLower p = Char.toLower c)
            && isPrefixOfB (lowerStr ps) (lowerStr cs))
    rw [matchesAt_of_no_dot ps (fun h => hp (List.mem_cons_of_mem p h)) cs, hcm]

/-- On patterns without the `.` wildcard, the unanchored regex search is
exactly case-insensitive substring occurrence. -/
theorem regexSearch_of_no_dot (pat : Str) (hp : ('.') ∉ pat) :
    ∀ hay, regexSearch pat hay = containsCI pat hay
  | [] => by
    show matchesAt pat [] = containsSub (lowerStr pat) (lowerStr [])
    rw [matchesAt_of_no_dot pat hp []]
    rfl
  | c :: cs => by
    show (matchesAt pat (c :: cs) || regexSearch pat cs)
        = containsSub (lowerStr pat) (lowerStr (c :: cs))
    rw [matchesAt_of_no_dot pat hp (c :: cs), regexSearch_of_no_dot pat hp cs]
    rfl

/-- For wildcard-free queries the store search condition agrees with the
spec's substring reading. -/
theorem storeMatches_eq_spec (q : Str) (hq : ('.') ∉ q) (s : StoreDoc) :
    storeMatches q s = storeMatchesSpec q s := by
  simp only [storeMatches, storeMatchesSpec, regexSearch_of_no_dot q hq]

/-- For wildcard-free queries the comment search condition agrees with
the spec's substring reading. -/
theorem commentMatches_eq_spec (q : Str) (hq : ('.') ∉ q) (c : CommentDoc) :
    commentMatches q c = commentMatchesSpec q c := by
  unfold commentMatches commentMatchesSpec
  rcases hce : c.email with _ | e <;>
    simp only [regexSearch_of_no_dot q hq]

/-- The filtered store set for a non-empty wildcard-free query is the set
of substring matches. -/
theorem storeFilter_eq_spec (q : Str) (hq0 : q ≠ []) (hq : ('.') ∉ q)
    (db : List StoreDoc) :
    db.filter (storeCondition (some q)) =
      db.filter (fun s => storeMatchesSpec q s) := by
  apply List.filter_congr
  intro s _
  show storeCondition (some q) s = storeMatchesSpec q s
  simp only [storeCondition, if_neg hq0]
  exact storeMatches_eq_spec q hq s

/-- The filtered comment set for a non-empty wildcard-free query is the
set of substring matches. -/
theorem commentFilter_eq_spec (q : Str) (hq0 : q ≠ []) (hq : ('.') ∉ q)
    (db : List CommentDoc) :
    db.filter (commentCondition (some q)) =
      db.filter (fun c => commentMatchesSpec q c) := by
  apply List.filter_congr
  intro c _
  show commentCondition (some q) c = commentMatchesSpec q c
  simp only [commentCondition, if_neg hq0]
  exact commentMatches_eq_spec q hq c

/-- A returned page is sorted newest-first. -/
theorem pageSlice_sorted (key : α → Nat) (page limit : Nat) (l : List α) :
    List.Sorted (byKeyDesc key) (pageSlice key page limit l) := by
  have hsub : List.Sublist (pageSlice key page limit l) (sortByCreatedDesc key l) :=
    (List.take_sublist _ _).trans (List.drop_sublist _ _)
  exact List.Pairwise.sublist hsub (sortByCreatedDesc_sorted key l)

/-- Every record on a returned page comes from the matched set. -/
theorem pageSlice_mem (key : α → Nat) (page limit : Nat) (l : List α)
    (a : α) (ha : a ∈ pageSlice key page limit l) : a ∈ l :=
  (sortByCreatedDesc_perm key l).mem_iff.mp
    (List.mem_of_mem_drop (List.mem_of_mem_take ha))

/-- C7 counterexample: the search string "a.c" is passed to MongoDB as a
regular expression, so the `.` acts as a wildcard: a store named "abc" is
returned and counted although "a.c" does not occur as a substring of any
of its search fields — the claim's "this holds for every search string,
including ones containing regex metacharacters" fails. -/
theorem c7_counterexample :
    (getAllStoresPage envOk 1 10 (some (("a.c").data)) [cxStore]).stores =
      some [cxStore] ∧
    (getAllStoresPage envOk 1 10 (some (("a.c").data)) [cxStore]).pagination =
      some ⟨1, 1, 1, 10, false, false⟩ ∧
    storeMatchesSpec (("a.c").data) cxStore = false := by
  decide

/-- C7 (amended): for every non-empty search string free of regex
metacharacters (none of `. * + ? ( ) [ ] \x7b \x7d \ ^ $ |` occurs in
it — the domain on which the modelled regex fragment coincides with the
real engine), the paginated listings behave as the spec says: totalCount
counts exactly the records in which the string occurs case-insensitively
as a substring of one of the fixed search fields, the returned page is
the corresponding slice of those matches ordered by creation time
descending, and every returned record matches.  A string containing
regex metacharacters is instead interpreted as a regular expression by
MongoDB. -/
theorem c7_search_substring_semantics :
    (∀ (env : Env) (page limit : Nat) (q : Str) (db : List StoreDoc),
      env.connOk = true → q ≠ [] → (∀ ch ∈ q, isRegexMeta ch = false) →
      ∃ stores p,
        (getAllStoresPage env page limit (some q) db).success = true ∧
        (getAllStoresPage env page limit (some q) db).stores = some stores ∧
        (getAllStoresPage env page limit (some q) db).pagination = some p ∧
        p.totalCount = (db.filter (fun s => storeMatchesSpec q s)).length ∧
        stores = pageSlice (fun s => s.createdAt) page limit
          (db.filter (fun s => storeMatchesSpec q s)) ∧
        (∀ s ∈ stores, storeMatchesSpec q s = true) ∧
        List.Sorted (byKeyDesc fun s => s.createdAt) stores) ∧
    (∀ (env : Env) (page limit : Nat) (q : Str) (db : List CommentDoc),
      env.connOk = true → q ≠ [] → (∀ ch ∈ q, isRegexMeta ch = false) →
      ∃ comments p,
        (getCommentsPaginated env page limit (some q) db).success = true ∧
        (getCommentsPaginated env page limit (some q) db).comments = some comments ∧
        (getCommentsPaginated env page limit (some q) db).pagination = some p ∧
        p.totalCount = (db.filter (fun c => commentMatchesSpec q c)).length ∧
        comments = pageSlice (fun c => c.createdAt) page limit
          (db.filter (fun c => commentMatchesSpec q c)) ∧
        (∀ c ∈ comments, commentMatchesSpec q c = true) ∧
        List.Sorted (byKeyDesc fun c => c.createdAt) comments) := by
  constructor
  · intro env page limit q db hconn hq0 hq
    have hdot : ('.') ∉ q := fun hm => absurd (hq ('.') hm) (by decide)
    rw [getAllStoresPage_ok env hconn, storeFilter_eq_spec q hq0 hdot db]
    refine ⟨_, _, rfl, rfl, rfl, rfl, rfl, ?_, ?_⟩
    · intro s hs
      exact List.of_mem_filter (pageSlice_mem _ page limit _ s hs)
    · exact pageSlice_sorted _ page limit _
  · intro env page limit q db hconn hq0 hq
    have hdot : ('.') ∉ q := fun hm => absurd (hq ('.') hm) (by decide)
    rw [getCommentsPaginated_ok env hconn, commentFilter_eq_spec q hq0 hdot db]
    refine ⟨_, _, rfl, rfl, rfl, rfl, rfl, ?_, ?_⟩
    · intro c hc
      exact List.of_mem_filter (pageSlice_mem _ page limit _ c hc)
    · exact pageSlice_sorted _ page limit _

/-- Witness for C7 at the concrete metacharacter-free query "b" over
`db3`. -/
theorem c7_search_substring_semantics_witness :
    ∃ stores p,
      (getAllStoresPage envOk 1 10 (some (("b").data)) db3).success = true ∧
      (getAllStoresPage envOk 1 10 (some (("b").data)) db3).stores = some stores ∧
      (getAllStoresPage envOk 1 10 (some (("b").data)) db3).pagination = some p ∧
      p.totalCount = (db3.filter (fun s => storeMatchesSpec (("b").data) s)).length ∧
      stores = pageSlice (fun s => s.createdAt) 1 10
        (db3.filter (fun s => storeMatchesSpec (("b").data) s)) ∧
      (∀ s ∈ stores, storeMatchesSpec (("b").data) s = true) ∧
      List.Sorted (byKeyDesc fun s => s.createdAt) stores :=
  c7_search_substring_semantics.1 envOk 1 10 (("b").data) db3 rfl
    (by decide) (by decide)

/-- `createComment` always returns a structured result: a success flag
plus a non-empty message. -/
theorem createComment_result_shape (env : Env) (data : Option CommentInput)
    (now : Nat) (newId : Str) (db : List CommentDoc) :
    (createComment env data now newId db).1.success = true ∨
    ((createComment env data now newId db).1.success = false ∧
      (createComment env data now newId db).1.message ≠ "") := by
  obtain ⟨b⟩ := env
  cases b <;> cases data <;> simp [createComment, createCommentRaw]

/-- `getCommentsPaginated` always returns a structured result. -/
theorem getCommentsPaginated_result_shape (env : Env) (page limit : Nat)
    (q : Option Str) (db : List CommentDoc) :
    (getCommentsPaginated env page limit q db).success = true ∨
    ((getCommentsPaginated env page limit q db).success = false ∧
      (getCommentsPaginated env page limit q db).error.isSome) := by
  obtain ⟨b⟩ := env
  cases b <;> simp [getCommentsPaginated, getCommentsPaginatedRaw]

/-- `deleteComment` always returns a structured result: success with a
message, or failure with an error. -/
theorem deleteComment_result_shape (env : Env) (id : Str) (now : Nat)
    (db : List CommentDoc) :
    ((deleteComment env id now db).1.success = true ∧
      (deleteComment env id now db).1.message.isSome) ∨
    ((deleteComment env id now db).1.success = false ∧
      (deleteComment env id now db).1.error.isSome) := by
  obtain ⟨b⟩ := env
  cases b
  · simp [deleteComment, deleteCommentRaw]
  · by_cases hid : id = []
    · simp [deleteComment, deleteCommentRaw, hid]
    · rcases hfind : db.find? (fun c => c.id = id) with _ | c <;>
        simp [deleteComment, deleteCommentRaw, hid, hfind]

/-- `restoreComment` always returns a structured result. -/
theorem restoreComment_result_shape (env : Env) (id : Str) (now : Nat)
    (db : List CommentDoc) :
    ((restoreComment env id now db).1.success = true ∧
      (restoreComment env id now db).1.message.isSome) ∨
    ((restoreComment env id now db).1.success = false ∧
      (restoreComment env id now db).1.error.isSome) := by
  obtain ⟨b⟩ := env
  cases b
  · simp [restoreComment, restoreCommentRaw]
  · by_cases hid : id = []
    · simp [restoreComment, restoreCommentRaw, hid]
    · rcases hfind : db.find? (fun c => c.id = id) with _ | c <;>
        simp [restoreComment, restoreCommentRaw, hid, hfind]

/-- `createStore` always returns a structured result. -/
theorem createStore_result_shape (env : Env) (parseOk : Bool)
    (input : IStoreInput) (now : Nat) (newId : Str) (db : List StoreDoc) :
    ((createStore env parseOk input now newId db).1.success = true ∧
      (createStore env parseOk input now newId db).1.message.isSome) ∨
    ((createStore env parseOk input now newId db).1.success = false ∧
      (createStore env parseOk input now newId db).1.error.isSome) := by
  obtain ⟨b⟩ := env
  cases b
  · cases parseOk <;> simp [createStore, createStoreRaw]
  · cases parseOk
    · simp [createStore, createStoreRaw]
    · rcases hfind : db.find? (fun s => s.storeId = input.storeId) with _ | s <;>
        simp [createStore, createStoreRaw, hfind]

/-- `getAllStoresPage` always returns a structured result. -/
theorem getAllStoresPage_result_shape (env : Env) (page limit : Nat)
    (q : Option Str) (db : List StoreDoc) :
    (getAllStoresPage env page limit q db).success = true ∨
    ((getAllStoresPage env page limit q db).success = false ∧
      (getAllStoresPage env page limit q db).error.isSome) := by
  obtain ⟨b⟩ := env
  cases b <;> simp [getAllStoresPage, getAllStoresPageRaw]

/-- An empty or unknown id makes `deleteComment` return a structured
failure (a plain return in the `try` block, not a thrown exception). -/
theorem deleteComment_bad_id (env : Env) (id : Str) (now : Nat)
    (db : List CommentDoc)
    (h : id = [] ∨ db.find? (fun c => c.id = id) = none) :
    (deleteComment env id now db).1.success = false ∧
    (deleteComment env id now db).1.error.isSome := by
  obtain ⟨b⟩ := env
  cases b
  · simp [deleteComment, deleteCommentRaw]
  · rcases h with hid | hfind
    · simp [deleteComment, deleteCommentRaw, hid]
    · by_cases hid : id = []
      · simp [deleteComment, deleteCommentRaw, hid]
      · simp [deleteComment, deleteCommentRaw, hid, hfind]

/-- An empty or unknown id makes `restoreComment` return a structured
failure. -/
theorem restoreComment_bad_id (env : Env) (id : Str) (now : Nat)
    (db : List CommentDoc)
    (h : id = [] ∨ db.find? (fun c => c.id = id) = none) :
    (restoreComment env id now db).1.success = false ∧
    (restoreComment env id now db).1.error.isSome := by
  obtain ⟨b⟩ := env
  cases b
  · simp [restoreComment, restoreCommentRaw]
  · rcases h with hid | hfind
    · simp [restoreComment, restoreCommentRaw, hid]
    · by_cases hid : id = []
      · simp [restoreComment, restoreCommentRaw, hid]
      · simp [restoreComment, restoreCommentRaw, hid, hfind]

/-- C8: every modelled server action is a total function into its
structured result type — for every input (malformed payload, unknown or
empty id, failing database alike) it yields a success flag, with a
non-empty message or a present error on failure, and never an escaping
exception (each action is its `try` body with every thrown `Err` mapped
to a structured failure); in particular `deleteComment` and
`restoreComment` return failure results when the id is empty or matches
no stored comment. -/
theorem c8_structured_results :
    (∀ (env : Env) (data : Option CommentInput) (now : Nat) (newId : Str)
        (db : List CommentDoc),
      (createComment env data now newId db).1.success = true ∨
      ((createComment env data now newId db).1.success = false ∧
        (createComment env data now newId db).1.message ≠ "")) ∧
    (∀ (env : Env) (page limit : Nat) (q : Option Str) (db : List CommentDoc),
      (getCommentsPaginated env page limit q db).success = true ∨
      ((getCommentsPaginated env page limit q db).success = false ∧
        (getCommentsPaginated env page limit q db).error.isSome)) ∧
    (∀ (env : Env) (id : Str) (now : Nat) (db : List CommentDoc),
      ((deleteComment env id now db).1.success = true ∧
        (deleteComment env id now db).1.message.isSome) ∨
      ((deleteComment env id now db).1.success = false ∧
        (deleteComment env id now db).1.error.isSome)) ∧
    (∀ (env : Env) (id : Str) (now : Nat) (db : List CommentDoc),
      ((restoreComment env id now db).1.success = true ∧
        (restoreComment env id now db).1.message.isSome) ∨
      ((restoreComment env id now db).1.success = false ∧
        (restoreComment env id now db).1.error.isSome)) ∧
    (∀ (env : Env) (parseOk : Bool) (input : IStoreInput) (now : Nat)
        (newId : Str) (db : List StoreDoc),
      ((createStore env parseOk input now newId db).1.success = true ∧
        (createStore env parseOk input now newId db).1.message.isSome) ∨
      ((createStore env parseOk input now newId db).1.success = false ∧
        (createStore env parseOk input now newId db).1.error.isSome)) ∧
    (∀ (env : Env) (page limit : Nat) (q : Option Str) (db : List StoreDoc),
      (getAllStoresPage env page limit q db).success = true ∨
      ((getAllStoresPage env page limit q db).success = false ∧
        (getAllStoresPage env page limit q db).error.isSome)) ∧
    (∀ (env : Env) (id : Str) (now : Nat) (db : List CommentDoc),
      (id = [] ∨ db.find? (fun c => c.id = id) = none) →
      ((deleteComment env id now db).1.success = false ∧
        (deleteComment env id now db).1.error.isSome) ∧
      ((restoreComment env id now db).1.success = false ∧
        (restoreComment env id now db).1.error.isSome)) :=
  ⟨createComment_result_shape, getCommentsPaginated_result_shape,
    deleteComment_result_shape, restoreComment_result_shape,
    createStore_result_shape, getAllStoresPage_result_shape,
    fun env id now db h =>
      ⟨deleteComment_bad_id env id now db h, restoreComment_bad_id env id now db h⟩⟩

/-- Witness for C8: deleting with an empty id on a failing database still
returns a structured failure. -/
theorem c8_structured_results_witness :
    ((deleteComment { connOk := false } [] 0 []).1.success = false ∧
      (deleteComment { connOk := false } [] 0 []).1.error.isSome) ∧
    ((restoreComment { connOk := false } [] 0 []).1.success = false ∧
      (restoreComment { connOk := false } [] 0 []).1.error.isSome) :=
  c8_structured_results.2.2.2.2.2.2 { connOk := false } [] 0 [] (Or.inl rfl)
